import Mathlib

/-!
Verification of the insta-infra orchestration CLI (`src/insta.go`) against its
natural-language specification.

The Go source is shallowly embedded: each library function
(`runServices`, `downServices`, `connectToService`, `printServices`,
`createDockerProject`) becomes a pure Lean function.  Interaction with the
external Container Backend (docker compose, not part of this repository) is
made explicit: every library function records the exact backend requests it
issues as a trace, and is parametrised by a backend `handle` function that
maps a backend state and a request to a new state and an optional error
(Go `error`; `none` is Go's nil).  A call to Go's `log.Fatalln` — which
terminates the process — is modelled by the `GoOutcome.fatalExit` outcome; a
normal return of an error value `e` is `GoOutcome.ok (some e)`, and a normal
nil return is `GoOutcome.ok none` (or `GoOutcome.ok ()` for functions without
a return value).  Log lines written with `log.Println` carry no behaviour and
are not modelled.
-/

/-- Mirrors `compose-go` `types.ServiceConfig` in the parts the program reads:
only the service name is ever consulted (`serviceConfig.Name`). -/
structure ServiceConfig where
  name : String
deriving DecidableEq

/-- Mirrors `compose-go` `types.Project` in the parts the program reads:
`p.Name` and the declared services. -/
structure Project where
  name : String
  services : List ServiceConfig
deriving DecidableEq

/-- Embeds `var nonServiceSuffix = []string` with entries `-data`, `-init`,
`-server`, from `src/insta.go` line 25. -/
def nonServiceSuffix : List String := ["-data", "-init", "-server"]

/-- Embeds Go `strings.HasSuffix serviceName sfx`.  Strings are compared as
their character sequences (`String.data`), which agrees with Go's byte-level
suffix test on the ASCII names and markers involved. -/
def hasSfx (serviceName sfx : String) : Bool :=
  List.isSuffixOf sfx.data serviceName.data

/-- Embeds the inner loop of `printServices` (`src/insta.go` lines 208-215):
`hasNonServiceSuffix` is true iff the name ends with some marker of
`nonServiceSuffix` (the loop with `break` is the short-circuiting `any`). -/
def hasNonServiceSuffix (serviceName : String) : Bool :=
  nonServiceSuffix.any (fun sfx => hasSfx serviceName sfx)

/-- Embeds `printServices` (`src/insta.go` lines 203-221) as the list of
service names it prints, in order: it returns early (printing nothing) when
`cCtx.NArg() > 0`, and otherwise prints `serviceConfig.Name` exactly when
`hasNonServiceSuffix` is true for that name. -/
def printServices (nargs : Nat) (services : List ServiceConfig) : List String :=
  if nargs > 0 then []
  else (services.filter (fun sc => hasNonServiceSuffix sc.name)).map (fun sc => sc.name)

/-- Tag of the derived Service Classification of spec section 3. -/
inductive Classification where
  | primary
  | auxiliary
deriving DecidableEq

/-- The Service Classifier: a thin wrapper naming the source's suffix test
(`hasNonServiceSuffix`) with the spec's `primary`/`auxiliary` tags. -/
def classify (serviceName : String) : Classification :=
  if hasNonServiceSuffix serviceName then Classification.auxiliary
  else Classification.primary

/-- Requests the program can issue to the Container Backend, read off the
`api.Service` calls in `src/insta.go`:
`up` is `srv.Up` with the whole Project value and the start-options service
list (an empty list means all declared services);
`down` is `srv.Down` addressed by `p.Name` with the down-options service
list; `exec` is `srv.Exec` addressed by `p.Name` with the five run-option
fields the source sets: service, command vector, working directory, tty flag
and environment. -/
inductive BackendRequest where
  | up (project : Project) (services : List String)
  | down (projectName : String) (services : List String)
  | exec (projectName : String) (service : String) (command : List String)
      (workingDir : String) (tty : Bool) (environment : List String)
deriving DecidableEq

/-- Recognises a start (`Up`) request among backend requests. -/
def BackendRequest.isStart : BackendRequest → Bool
  | BackendRequest.up _ _ => true
  | _ => false

/-- How a Go function call ends: a normal return of value `val`, or process
termination inside the function via `log.Fatalln msg`. -/
inductive GoOutcome (α : Type) where
  | ok (val : α)
  | fatalExit (msg : String)
deriving DecidableEq

/-- True when the call ended by `log.Fatalln` (process termination). -/
def GoOutcome.isFatal {α : Type} : GoOutcome α → Bool
  | GoOutcome.fatalExit _ => true
  | GoOutcome.ok _ => false

/-- True when the call returned a non-nil Go error value to its caller. -/
def GoOutcome.returnedError : GoOutcome (Option String) → Bool
  | GoOutcome.ok (some _) => true
  | _ => false

/-- Result of running one embedded library function: the Project value as
observed through the pointer `p` after the call, the backend state after the
call, the trace of backend requests issued, and how the call ended. -/
structure OpResult (σ : Type) (α : Type) where
  proj : Project
  state : σ
  trace : List BackendRequest
  outcome : GoOutcome α

/-- Embeds `runServices` (`src/insta.go` lines 106-114).  It issues the single
`Up` request, then on a non-nil backend error calls `log.Fatalln` with the
message "Failed to bring services up:" and the error (process exit), and
otherwise reaches `return err` with `err` nil.  The source contains no
assignment through `p`, so the observed Project is returned unchanged. -/
def runServices {σ : Type} (handle : σ → BackendRequest → σ × Option String)
    (st : σ) (p : Project) (services : List String) : OpResult σ (Option String) :=
  let req := BackendRequest.up p services
  let res := handle st req
  match res.2 with
  | some e => ⟨p, res.1, [req], GoOutcome.fatalExit ("Failed to bring services up: " ++ e)⟩
  | none => ⟨p, res.1, [req], GoOutcome.ok none⟩

/-- Embeds `downServices` (`src/insta.go` lines 116-123), analogously to
`runServices`: one `Down` request addressed by `p.Name`, `log.Fatalln` on a
non-nil error, `return err` (nil) otherwise. -/
def downServices {σ : Type} (handle : σ → BackendRequest → σ × Option String)
    (st : σ) (p : Project) (services : List String) : OpResult σ (Option String) :=
  let req := BackendRequest.down p.name services
  let res := handle st req
  match res.2 with
  | some e => ⟨p, res.1, [req], GoOutcome.fatalExit ("Failed to bring services down: " ++ e)⟩
  | none => ⟨p, res.1, [req], GoOutcome.ok none⟩

/-- Embeds `connectToService` (`src/insta.go` lines 189-201): one `Exec`
request whose run options are the service name, the one-element command
vector `[cmd]` (never shell-split), working directory `/bin`, tty enabled and
an empty environment; on a non-nil error it calls `log.Fatalln` naming the
service and the error, otherwise it logs the result and returns nothing. -/
def connectToService {σ : Type} (handle : σ → BackendRequest → σ × Option String)
    (st : σ) (p : Project) (service : String) (cmd : String) : OpResult σ Unit :=
  let req := BackendRequest.exec p.name service [cmd] "/bin" true []
  let res := handle st req
  match res.2 with
  | some e =>
      ⟨p, res.1, [req],
        GoOutcome.fatalExit ("Failed to connect to service: " ++ service ++ " . Error: " ++ e)⟩
  | none => ⟨p, res.1, [req], GoOutcome.ok ()⟩

/-- Embeds `createDockerProject` (`src/insta.go` lines 149-167).  The
compose-go loader itself is external to this repository and is abstracted as
the `parseServices` parameter; the source passes the literal project name
`testproject` with the override flag set to true, whose documented loader
contract forces the Project name regardless of the topology text. -/
def createDockerProject (parseServices : String → List ServiceConfig)
    (data : String) : Project :=
  ⟨"testproject", parseServices data⟩

/-- Effects the CLI command actions in `main` can produce: printing a line to
standard output, or issuing a backend request. -/
inductive CliEffect where
  | printLine (line : String)
  | request (req : BackendRequest)
deriving DecidableEq

/-- True for a `CliEffect` that issues a backend request. -/
def CliEffect.issuesBackendRequest : CliEffect → Bool
  | CliEffect.request _ => true
  | CliEffect.printLine _ => false

/-- Embeds the `Action` closure of the `connect` command (`src/insta.go`
lines 60-67): it only runs `fmt.Println` on the literal "connect task: " and
the first argument (Go's `Println` joins operands with a single space, and
`First()` is the empty string when no argument is given), then returns nil.
It calls no backend operation. -/
def connectCommandAction (args : List String) : List CliEffect :=
  [CliEffect.printLine ("connect task:  " ++ args.headD "")]

/-- State of the Container Backend for one project namespace: the set of
currently running service names, kept as a duplicate-free-by-construction
list. -/
structure BackendState where
  running : List String
deriving DecidableEq

/-- Modelled from the spec: the Container Backend (docker compose) is not
part of this repository's source, so its behaviour is taken from the spec.
`start`/`Up` reconciles declared state with observed state (spec section 4.3,
idempotent, no error on already-running services): the running set becomes
the old one plus the missing targets, where an empty target list means every
declared service of the passed project.  `stop`/`Down` removes the targets
(all, when the list is empty) without error (idempotent, spec section 4.3).
`execInteractive`/`Exec` requires the service to be currently running and
otherwise fails with a `ServiceNotRunningError` without starting anything
(spec sections 4.4 and 7). -/
def composeBackend (st : BackendState) (req : BackendRequest) :
    BackendState × Option String :=
  match req with
  | BackendRequest.up p targets =>
      let names := if targets.isEmpty then p.services.map (fun sc => sc.name) else targets
      (⟨st.running ++ names.filter (fun n => decide (n ∉ st.running))⟩, none)
  | BackendRequest.down _ targets =>
      if targets.isEmpty then (⟨[]⟩, none)
      else (⟨st.running.filter (fun n => decide (n ∉ targets))⟩, none)
  | BackendRequest.exec _ service _ _ _ _ =>
      if service ∈ st.running then (st, none)
      else (st, some "ServiceNotRunningError")

/-- One CLI-level lifecycle or attach operation, as dispatched by `main` to
the embedded library functions. -/
inductive CliOp where
  | up (services : List String)
  | down (services : List String)
  | attach (service : String) (cmd : String)
deriving DecidableEq

/-- Runs one `CliOp` through the corresponding library function, yielding the
observed Project, the backend state, and whether the call ended in
`log.Fatalln`. -/
def runOp {σ : Type} (handle : σ → BackendRequest → σ × Option String)
    (p : Project) (st : σ) : CliOp → Project × σ × Bool
  | CliOp.up services =>
      let r := runServices handle st p services
      (r.proj, r.state, r.outcome.isFatal)
  | CliOp.down services =>
      let r := downServices handle st p services
      (r.proj, r.state, r.outcome.isFatal)
  | CliOp.attach service cmd =>
      let r := connectToService handle st p service cmd
      (r.proj, r.state, r.outcome.isFatal)

/-- Runs a sequence of operations, stopping early when one terminates the
process, and returns the observed Project and final backend state. -/
def runOps {σ : Type} (handle : σ → BackendRequest → σ × Option String)
    (p : Project) (st : σ) : List CliOp → Project × σ
  | [] => (p, st)
  | op :: ops =>
      let r := runOp handle p st op
      if r.2.2 then (r.1, r.2.1) else runOps handle r.1 r.2.1 ops

/-- A concrete project used to evaluate the embedded code at concrete
inputs. -/
def sampleProject : Project :=
  ⟨"testproject", [⟨"api"⟩, ⟨"worker"⟩, ⟨"cache-data"⟩, ⟨"db-init"⟩]⟩

/-- A backend handle on which every request fails with a fixed transport-level
error, used to evaluate the error paths of the embedded code. -/
def alwaysFailHandle : Unit → BackendRequest → Unit × Option String :=
  fun _ _ => ((), some "backend unavailable")

theorem runServices_proj_trace {σ : Type}
    (handle : σ → BackendRequest → σ × Option String) (st : σ) (p : Project)
    (services : List String) :
    (runServices handle st p services).proj = p ∧
      (runServices handle st p services).trace = [BackendRequest.up p services] := by
  cases h : (handle st (BackendRequest.up p services)).2 <;>
    simp [runServices, h]

theorem downServices_proj_trace {σ : Type}
    (handle : σ → BackendRequest → σ × Option String) (st : σ) (p : Project)
    (services : List String) :
    (downServices handle st p services).proj = p ∧
      (downServices handle st p services).trace = [BackendRequest.down p.name services] := by
  cases h : (handle st (BackendRequest.down p.name services)).2 <;>
    simp [downServices, h]

theorem connectToService_proj_trace {σ : Type}
    (handle : σ → BackendRequest → σ × Option String) (st : σ) (p : Project)
    (service cmd : String) :
    (connectToService handle st p service cmd).proj = p ∧
      (connectToService handle st p service cmd).trace =
        [BackendRequest.exec p.name service [cmd] "/bin" true []] := by
  cases h : (handle st (BackendRequest.exec p.name service [cmd] "/bin" true [])).2 <;>
    simp [connectToService, h]

theorem mem_append_filter_not_mem (running names : List String) (n : String)
    (hn : n ∈ names) :
    n ∈ running ++ names.filter (fun m => decide (m ∉ running)) := by
  by_cases h : n ∈ running
  · exact List.mem_append_left _ h
  · exact List.mem_append_right _ (List.mem_filter.mpr ⟨hn, by simp [h]⟩)

theorem filter_not_mem_after_up (running names : List String) :
    names.filter
        (fun m => decide (m ∉ running ++ names.filter (fun k => decide (k ∉ running)))) =
      [] := by
  rw [List.filter_eq_nil_iff]
  intro a ha
  simp only [decide_eq_true_eq, Decidable.not_not]
  exact mem_append_filter_not_mem running names a ha

theorem runServices_composeBackend_eq (st : BackendState) (p : Project)
    (targets : List String) :
    runServices composeBackend st p targets =
      ⟨p,
        ⟨st.running ++
          (if targets.isEmpty then p.services.map (fun sc => sc.name) else targets).filter
            (fun n => decide (n ∉ st.running))⟩,
        [BackendRequest.up p targets], GoOutcome.ok none⟩ := rfl

/-- C1: the claim says `printServices` with no explicit arguments shows a name
iff it does NOT end with an auxiliary suffix marker.  The code does the
opposite: on the declared services `api`, `worker`, `cache-data`, `db-init`
it prints exactly the two auxiliary-suffixed names and omits both primary
names. -/
theorem printServices_prints_only_auxiliary :
    printServices 0 sampleProject.services = ["cache-data", "db-init"] := by
  decide

/-- C2: the claim says a backend error during bring-up or bring-down is
returned to the CLI dispatch layer.  The code instead calls `log.Fatalln`
inside `runServices` and `downServices` on every backend error (process
termination inside the library function, shown here on a concrete failing
backend), and on no input does either function return a non-nil error to its
caller. -/
theorem runServices_fatals_inside_library :
    (runServices alwaysFailHandle () sampleProject ["api"]).outcome =
      GoOutcome.fatalExit "Failed to bring services up: backend unavailable" ∧
    (downServices alwaysFailHandle () sampleProject ["api"]).outcome =
      GoOutcome.fatalExit "Failed to bring services down: backend unavailable" ∧
    (∀ (σ : Type) (handle : σ → BackendRequest → σ × Option String) (st : σ)
        (p : Project) (services : List String),
      ((runServices handle st p services).outcome.returnedError) = false) ∧
    (∀ (σ : Type) (handle : σ → BackendRequest → σ × Option String) (st : σ)
        (p : Project) (services : List String),
      ((downServices handle st p services).outcome.returnedError) = false) := by
  refine ⟨rfl, rfl, ?_, ?_⟩
  · intro σ handle st p services
    cases h : (handle st (BackendRequest.up p services)).2 <;>
      simp [runServices, h, GoOutcome.returnedError]
  · intro σ handle st p services
    cases h : (handle st (BackendRequest.down p.name services)).2 <;>
      simp [downServices, h, GoOutcome.returnedError]

/-- C3: the claim says the CLI `connect` command performs the interactive
attach for the named service and command.  The code's `connect` action is a
stub: on the failing input `connect my-service "echo hello world"` it only
prints a line and, for every argument list, it issues no backend request at
all (the actual `Exec` calls sit after the CLI run loop in `main`, with
hard-coded arguments). -/
theorem connectCommand_is_stub :
    connectCommandAction ["my-service", "echo hello world"] =
      [CliEffect.printLine "connect task:  my-service"] ∧
    (∀ args : List String,
      ((connectCommandAction args).all fun eff => !eff.issuesBackendRequest) = true) := by
  exact ⟨by decide, fun args => rfl⟩

/-- C4: bring-up with an empty target set issues exactly one batched start
request to the backend — the trace of `runServices` is the single `Up`
request carrying the whole Project — and under the reconciling backend model
that one request covers every declared service: each declared name is
running afterwards. -/
theorem runServices_single_batched_up :
    (∀ (σ : Type) (handle : σ → BackendRequest → σ × Option String) (st : σ)
        (p : Project),
      (runServices handle st p []).trace = [BackendRequest.up p []]) ∧
    (∀ (st : BackendState) (p : Project),
      (p.services.all fun sc =>
        decide (sc.name ∈ (runServices composeBackend st p []).state.running)) = true) := by
  constructor
  · intro σ handle st p
    exact (runServices_proj_trace handle st p []).2
  · intro st p
    rw [List.all_eq_true]
    intro sc hsc
    rw [decide_eq_true_eq, runServices_composeBackend_eq]
    exact mem_append_filter_not_mem st.running _ sc.name
      (by simpa using List.mem_map_of_mem (fun s => s.name) hsc)

/-- C5: the classifier tags a name auxiliary iff it ends with one of the
fixed markers `-data`, `-init`, `-server`; in particular `cache-data` and
`db-init` are auxiliary while `api` and `worker` are primary. -/
theorem classify_auxiliary_iff_marker :
    (∀ serviceName : String,
      classify serviceName = Classification.auxiliary ↔
        (hasSfx serviceName "-data" = true ∨ hasSfx serviceName "-init" = true ∨
          hasSfx serviceName "-server" = true)) ∧
    classify "cache-data" = Classification.auxiliary ∧
    classify "db-init" = Classification.auxiliary ∧
    classify "api" = Classification.primary ∧
    classify "worker" = Classification.primary := by
  refine ⟨?_, by decide, by decide, by decide, by decide⟩
  intro serviceName
  constructor
  · intro h
    by_cases hb : hasNonServiceSuffix serviceName = true
    · have := hb
      simp [hasNonServiceSuffix, nonServiceSuffix] at this
      tauto
    · simp [classify, hb] at h
  · intro h
    have hb : hasNonServiceSuffix serviceName = true := by
      simp [hasNonServiceSuffix, nonServiceSuffix]
      tauto
    simp [classify, hb]

/-- C6: bring-up is idempotent: running `runServices` twice with the same
Project and target list against the reconciling backend produces no error on
the second invocation and leaves the set of running services unchanged. -/
theorem runServices_idempotent (st : BackendState) (p : Project)
    (targets : List String) :
    (runServices composeBackend
        (runServices composeBackend st p targets).state p targets).outcome =
      GoOutcome.ok none ∧
    (runServices composeBackend
        (runServices composeBackend st p targets).state p targets).state.running =
      (runServices composeBackend st p targets).state.running := by
  constructor
  · rw [runServices_composeBackend_eq]
  · simp only [runServices_composeBackend_eq]
    simp [filter_not_mem_after_up]
    exact fun a ha hna => ⟨ha, hna⟩

/-- C7: attaching to a service that is not currently running fails with the
`ServiceNotRunningError` (reported through the fatal-exit path of
`connectToService`) and the backend trace contains no start request: the
service is never implicitly started. -/
theorem connectToService_not_running (st : BackendState) (p : Project)
    (service cmd : String) (h : service ∉ st.running) :
    (connectToService composeBackend st p service cmd).outcome =
      GoOutcome.fatalExit
        ("Failed to connect to service: " ++ service ++ " . Error: " ++ "ServiceNotRunningError") ∧
    ((connectToService composeBackend st p service cmd).trace.all
      fun req => !req.isStart) = true := by
  constructor
  · simp [connectToService, composeBackend, h]
  · simp [connectToService, composeBackend, h, BackendRequest.isStart]

/-- Witness for C7 at the concrete state with nothing running and the service
`web-data` of the sample project. -/
theorem connectToService_not_running_witness :
    (connectToService composeBackend ⟨[]⟩ sampleProject "web-data" "echo hi").outcome =
      GoOutcome.fatalExit
        ("Failed to connect to service: " ++ "web-data" ++ " . Error: " ++ "ServiceNotRunningError") ∧
    ((connectToService composeBackend ⟨[]⟩ sampleProject "web-data" "echo hi").trace.all
      fun req => !req.isStart) = true :=
  connectToService_not_running ⟨[]⟩ sampleProject "web-data" "echo hi" (by simp)

/-- C8: no lifecycle or attach operation mutates the Project: after any
sequence of operations against any backend, the observed Project equals the
one the loader produced. -/
theorem project_unchanged_by_ops (σ : Type)
    (handle : σ → BackendRequest → σ × Option String) (p : Project) (st : σ)
    (ops : List CliOp) :
    (runOps handle p st ops).1 = p := by
  induction ops generalizing st with
  | nil => rfl
  | cons op ops ih =>
      have hproj : (runOp handle p st op).1 = p := by
        cases op with
        | up services => exact (runServices_proj_trace handle st p services).1
        | down services => exact (downServices_proj_trace handle st p services).1
        | attach service cmd => exact (connectToService_proj_trace handle st p service cmd).1
      rw [runOps]
      by_cases hf : (runOp handle p st op).2.2 = true
      · simp only [hf, if_pos]
        exact hproj
      · simp only [hf, if_neg, Bool.not_eq_true]
        rw [hproj]
        exact ih _

/-- C9: the exec request sent by `connectToService` is fully determined by
the service name and the command line: a one-element command vector, working
directory `/bin`, tty enabled and an empty environment, for every backend
and state. -/
theorem connectToService_exec_request (σ : Type)
    (handle : σ → BackendRequest → σ × Option String) (st : σ) (p : Project)
    (service cmd : String) :
    (connectToService handle st p service cmd).trace =
      [BackendRequest.exec p.name service [cmd] "/bin" true []] :=
  (connectToService_proj_trace handle st p service cmd).2

/-- C10: every Project the loader produces is named `testproject` regardless
of the topology text, and that constant is the namespace carried by the
backend requests of every bring-down and attach operation on such a
Project. -/
theorem createDockerProject_name_testproject :
    (∀ (parseServices : String → List ServiceConfig) (data : String),
      (createDockerProject parseServices data).name = "testproject") ∧
    (∀ (σ : Type) (handle : σ → BackendRequest → σ × Option String) (st : σ)
        (parseServices : String → List ServiceConfig) (data : String)
        (services : List String),
      (downServices handle st (createDockerProject parseServices data) services).trace =
        [BackendRequest.down "testproject" services]) ∧
    (∀ (σ : Type) (handle : σ → BackendRequest → σ × Option String) (st : σ)
        (parseServices : String → List ServiceConfig) (data : String)
        (service cmd : String),
      (connectToService handle st (createDockerProject parseServices data) service cmd).trace =
        [BackendRequest.exec "testproject" service [cmd] "/bin" true []]) := by
  refine ⟨fun _ _ => rfl, ?_, ?_⟩
  · intro σ handle st parseServices data services
    exact (downServices_proj_trace handle st (createDockerProject parseServices data) services).2
  · intro σ handle st parseServices data service cmd
    exact (connectToService_proj_trace handle st
      (createDockerProject parseServices data) service cmd).2
